import Mathlib

/-!
Verification development for the deepconsensus repository.

This file gives a shallow embedding of the configuration and analysis
utilities of the repository (`deepconsensus/models/model_utils.py`,
`deepconsensus/models/run_majority_vote_model.py`,
`deepconsensus/utils/colab_utils.py`) and proves properties of them.

A `ml_collections.ConfigDict` is embedded as an insertion-ordered
association list from string keys to values (`Params`); attribute access
on a missing key, failed asserts, and raised exceptions are embedded as
`Except.error`.  External effects (GPU discovery, file globbing, reading
the first record of a sharded TFRecord file, the external transformer
hyperparameter table `misc.get_model_params`) are passed in through an
explicit environment record, so every function stays executable.
-/

namespace DeepConsensus

/-- Value stored under one key of a ConfigDict: an integer, a string or a
boolean.  Python booleans participate in arithmetic as 0/1, which `asInt`
mirrors. -/
inductive Value where
  | vInt : Int → Value
  | vStr : String → Value
  | vBool : Bool → Value
deriving DecidableEq, Repr

/-- Embedding of an `ml_collections.ConfigDict`: an insertion-ordered
association list of key/value pairs. -/
abbrev Params := List (String × Value)

/-- First value stored under key `k`, if any. -/
def lookupP : Params → String → Option Value
  | [], _ => none
  | (k2, v) :: rest, k => if k2 = k then some v else lookupP rest k

/-- Assignment `params[k] = v`: update the existing entry in place, or
append a new entry at the end (ConfigDict keeps insertion order). -/
def setKey : Params → String → Value → Params
  | [], k, v => [(k, v)]
  | (k2, v2) :: rest, k, v =>
      if k2 = k then (k, v) :: rest else (k2, v2) :: setKey rest k v

/-- Deletion `del params[k]`: removes the first entry with key `k`. -/
def delKey : Params → String → Params
  | [], _ => []
  | (k2, v2) :: rest, k => if k2 = k then rest else (k2, v2) :: delKey rest k

/-- Membership test `k in params`. -/
def hasKey (p : Params) (k : String) : Bool := (lookupP p k).isSome

/-- Python truthiness of a stored value. -/
def truthy : Value → Bool
  | .vInt n => n != 0
  | .vStr s => s != ""
  | .vBool b => b

/-- Numeric reading of a value, as Python arithmetic sees it
(booleans count as 0/1; strings are not numbers). -/
def asInt : Value → Option Int
  | .vInt n => some n
  | .vBool b => some (if b then 1 else 0)
  | .vStr _ => none

/-- Integer value stored under `k`, if present and numeric. -/
def pInt (p : Params) (k : String) : Option Int := (lookupP p k).bind asInt

/-- Attribute access `params.k`: raises (AttributeError) when absent. -/
def requireVal (p : Params) (k : String) : Except String Value :=
  match lookupP p k with
  | some v => .ok v
  | none => .error ("AttributeError: " ++ k)

/-- Attribute access that is then used in arithmetic. -/
def requireInt (p : Params) (k : String) : Except String Int :=
  match requireVal p k with
  | .error e => .error e
  | .ok v =>
    match asInt v with
    | some n => .ok n
    | none => .error ("TypeError: " ++ k)

/-- Attribute access that is then used as a string. -/
def requireStr (p : Params) (k : String) : Except String String :=
  match requireVal p k with
  | .error e => .error e
  | .ok (.vStr s) => .ok s
  | .ok _ => .error ("TypeError: " ++ k)

/-- Truthiness of an optional string argument, as Python `not x` sees it:
`None` and the empty string are falsy. -/
def pyTruthyOpt : Option String → Bool
  | none => false
  | some s => s != ""

/-- Splits a list of characters on a separator character, mirroring
Python `str.split` with a one-character separator (`'0x2'.split('x')`
gives `['0', '2']`, and a leading/trailing separator yields empty parts). -/
def splitOnChar (c : Char) : List Char → List (List Char)
  | [] => [[]]
  | x :: xs =>
    let r := splitOnChar c xs
    if x = c then [] :: r
    else
      match r with
      | [] => [[x]]
      | h :: t => (x :: h) :: t

/-- Accumulator for decimal digit parsing. -/
def digitsToNatAux : List Char → Nat → Option Nat
  | [], acc => some acc
  | c :: cs, acc =>
    if c.isDigit then digitsToNatAux cs (acc * 10 + (c.toNat - ('0').toNat))
    else none

/-- Parses a non-empty string of decimal digits. -/
def digitsToNat : List Char → Option Nat
  | [] => none
  | l => digitsToNatAux l 0

/-- Python `int(s)` on an optionally signed decimal literal; any other
input raises ValueError, embedded as `none`. -/
def pyParseInt (s : String) : Option Int :=
  match s.data with
  | '-' :: rest => (digitsToNat rest).map (fun n => -(n : Int))
  | '+' :: rest => (digitsToNat rest).map (fun n => (n : Int))
  | l => (digitsToNat l).map (fun n => (n : Int))

/-- Python `'x'.join`-style split of a string, used for the TPU topology
string `NxM`. -/
def splitOnX (s : String) : List String :=
  (splitOnChar 'x' s.data).map (fun l => String.mk l)

/-- Substring test, Python `needle in hay`. -/
def containsSub (needle hay : String) : Bool :=
  hay.data.tails.any (fun t => needle.data.isPrefixOf t)

/-! ### Spec-modelled domain constants

`deepconsensus/utils/dc_constants.py` and
`deepconsensus/tf_examples/tf_example_utils.py` are not part of the
provided sources; the definitions below are modelled from the spec. -/

/-- Modelled from the spec: the gap/pad symbol of the vocabulary,
used for both padding and alignment gaps. -/
def GAP_OR_PAD : String := " "

/-- Modelled from the spec: the fixed ordered vocabulary, bases
`A,C,G,T` plus the gap/pad symbol; class index = position in this list. -/
def VOCAB : List String := ["A", "C", "G", "T", GAP_OR_PAD]

/-- Modelled from the spec: `dc_constants.TF_DATA_TYPE`, the system-wide
canonical floating-point type that `read_params_from_json` forces. -/
def TF_DATA_TYPE : Value := .vStr "float32"

/-- Modelled from the spec: `tf_example_utils.get_total_rows`, the fixed
row-layout total for a given `max_passes` — `max_passes` rows for each of
bases, pulse width, interpulse and strand, one CCS row and four
signal-to-noise rows; error if `max_passes` is non-positive. -/
def getTotalRows (maxPasses : Int) : Except String Int :=
  if maxPasses ≤ 0 then .error "ValueError: max_passes must be positive"
  else .ok (4 * maxPasses + 5)

/-! ### Environment

External inputs of `model_utils.py`: hardware discovery, the first
record's shape for a sharded path, the dataset example-count JSON, and
the external transformer hyperparameter table. -/

/-- External world as seen by `modify_params` and the majority-vote
pipeline builder. -/
structure Env where
  /-- Number of physical GPUs reported by
  `tf.config.experimental.list_physical_devices` followed by `len`. -/
  numGpus : Nat
  /-- Shape field `[hidden_size, max_length, channels]` of the first
  record found under a sharded path (`get_record_shape`). -/
  recordShape : String → List Int
  /-- Count loaded from the dataset `counts.json` for training examples. -/
  trainExamples : Int
  /-- Count loaded from the dataset `counts.json` for eval examples. -/
  evalExamples : Int
  /-- External table `misc.get_model_params(model_size, num_gpus)`. -/
  getModelParams : String → Nat → Params

/-- Embedding of `get_record_shape` followed by indexing at 1
(`extract_max_length`); an out-of-range index raises. -/
def extractMaxLength (env : Env) (path : String) : Except String Int :=
  match (env.recordShape path).get? 1 with
  | some n => .ok n
  | none => .error "IndexError: subreads/shape"

/-- Embedding of `get_record_shape` followed by indexing at 0
(`extract_example_height`). -/
def extractExampleHeight (env : Env) (path : String) : Except String Int :=
  match (env.recordShape path).get? 0 with
  | some n => .ok n
  | none => .error "IndexError: subreads/shape"

/-! ### modify_params, stage by stage

`modify_params` (model_utils.py lines 117-204) is embedded as a
sequential composition of stages in the order the source executes them. -/

/-- Fixed dataset root used by `set_dataset`. -/
def tfExamplesPath : String :=
  "/readahead/1G/placer/prod/home/brain-genomics/deepconsensus/datasets/tf_examples"

/-- Embedding of `set_dataset`: resolves the four dataset directory
paths, loads the example counts and fixes `max_passes` at 20. -/
def setDataset (env : Env) (p : Params) : Except String Params :=
  match requireStr p "tf_dataset" with
  | .error e => .error e
  | .ok ds =>
    let base := tfExamplesPath ++ "/" ++ ds
    let p := setKey p "train_path" (.vStr (base ++ "/train"))
    let p := setKey p "eval_path" (.vStr (base ++ "/eval"))
    let p := setKey p "hard_eval_path" (.vStr (base ++ "/hard_test/deepconsensus"))
    let p := setKey p "test_path" (.vStr (base ++ "/test"))
    let p := setKey p "train_data_size" (.vInt env.trainExamples)
    let p := setKey p "eval_data_size" (.vInt env.evalExamples)
    .ok (setKey p "max_passes" (.vInt 20))

/-- Stage 1 of `modify_params`: call `set_dataset` when `tf_dataset` is
present and truthy. -/
def stageDataset (env : Env) (p : Params) : Except String Params :=
  match lookupP p "tf_dataset" with
  | some v => if truthy v then setDataset env p else .ok p
  | none => .ok p

/-- Stage 2 of `modify_params`: hardware batch-size scaling.  With GPUs
present the code asserts no TPU is in use (Python truthiness of the `tpu`
argument) and multiplies `batch_size` by the GPU count; otherwise, when a
TPU name was passed, it multiplies `batch_size` by `tpu_scale_factor` and
then by `N * M * 2` for a topology string `NxM`, asserting that the
topology was passed, that each part parses as an integer, and that there
are exactly two parts. -/
def stageHardware (env : Env) (tpu : Option String)
    (tpuTopology : Option String) (p : Params) : Except String Params :=
  if env.numGpus > 0 then
    if pyTruthyOpt tpu then .error "AssertionError: not tpu"
    else
      match requireInt p "batch_size" with
      | .error e => .error e
      | .ok b => .ok (setKey p "batch_size" (.vInt (b * (env.numGpus : Int))))
  else
    match tpu with
    | none => .ok p
    | some _ =>
      match requireInt p "batch_size" with
      | .error e => .error e
      | .ok b =>
        match requireInt p "tpu_scale_factor" with
        | .error e => .error e
        | .ok sf =>
          let b2 := b * sf
          let p := setKey p "batch_size" (.vInt b2)
          match tpuTopology with
          | none => .error "AssertionError: tpu_topology is not None"
          | some topo =>
            match (splitOnX topo).mapM pyParseInt with
            | none => .error "ValueError: invalid literal for int"
            | some parts =>
              match parts with
              | [n, m] =>
                .ok (setKey p "batch_size" (.vInt (b2 * (n * m * 2))))
              | _ => .error "AssertionError: len(tpu_topology_parts) == 2"

/-- Stage 3 of `modify_params`: read `max_length` from the first record
of the training dataset. -/
def stageShape (env : Env) (p : Params) : Except String Params :=
  match requireStr p "train_path" with
  | .error e => .error e
  | .ok tp =>
    match extractMaxLength env (tp ++ "/train") with
    | .error e => .error e
    | .ok ml => .ok (setKey p "max_length" (.vInt ml))

/-- Hidden-size formula of the learned-embedding transformer: the sum
over enabled channels of `max_passes` times the per-channel hidden size,
plus the signal-to-noise (4 rows) and CCS contributions. -/
def lvHiddenSize (p : Params) : Except String Int := do
  let mp ← requireInt p "max_passes"
  let useBases ← requireInt p "use_bases"
  let perBase ← requireInt p "per_base_hidden_size"
  let usePw ← requireInt p "use_pw"
  let pwH ← requireInt p "pw_hidden_size"
  let useIp ← requireInt p "use_ip"
  let ipH ← requireInt p "ip_hidden_size"
  let useStrand ← requireInt p "use_strand"
  let strandH ← requireInt p "strand_hidden_size"
  let useDnabert ← requireInt p "use_dnabert"
  let dnabertH ← requireInt p "dnabert_desired_hidden_size"
  let useSn ← requireInt p "use_sn"
  let snH ← requireInt p "sn_hidden_size"
  let useCcs ← requireInt p "use_ccs"
  pure (mp * (useBases * perBase + usePw * pwH + useIp * ipH +
      useStrand * strandH + useDnabert * dnabertH) +
    useSn * snH * 4 + useCcs * perBase)

/-- Stage 4 of `modify_params`: derive `hidden_size`, either from the
per-channel formula (learned-embedding transformer) or from the fixed
row-layout total. -/
def stageHiddenSize (p : Params) : Except String Params :=
  match requireStr p "model_name" with
  | .error e => .error e
  | .ok mn =>
    if mn = "transformer_learn_values" then
      match lvHiddenSize p with
      | .error e => .error e
      | .ok hs => .ok (setKey p "hidden_size" (.vInt hs))
    else
      match requireInt p "max_passes" with
      | .error e => .error e
      | .ok mp =>
        match getTotalRows mp with
        | .error e => .error e
        | .ok hs => .ok (setKey p "hidden_size" (.vInt hs))

/-- Stage 5 of `modify_params`: transformer-family models require an even
hidden size, so an odd value is incremented by one. -/
def stageEvenFix (p : Params) : Except String Params :=
  match requireStr p "model_name" with
  | .error e => .error e
  | .ok mn =>
    if containsSub "transformer" mn then
      match requireInt p "hidden_size" with
      | .error e => .error e
      | .ok hs =>
        if hs % 2 ≠ 0 then .ok (setKey p "hidden_size" (.vInt (hs + 1)))
        else .ok p
    else .ok p

/-- Stage 6 of `modify_params`: model-specific fix-ups.  The
convolutional model sets `hidden_size` to `max(32, max_passes)` (the
image is padded to a height of at least 32); the transformer variants
mirror `batch_size` into `default_batch_size`, and the learned-embedding
variant overrides `hidden_size` with `transformer_input_size` when input
condensing is enabled. -/
def stageModelSpecific (p : Params) : Except String Params :=
  match requireStr p "model_name" with
  | .error e => .error e
  | .ok mn =>
    if mn = "conv_net" then
      match requireInt p "max_passes" with
      | .error e => .error e
      | .ok mp => .ok (setKey p "hidden_size" (.vInt (max 32 mp)))
    else if mn = "transformer" then
      match requireVal p "batch_size" with
      | .error e => .error e
      | .ok bv => .ok (setKey p "default_batch_size" bv)
    else if mn = "transformer_learn_values" then
      match requireVal p "batch_size" with
      | .error e => .error e
      | .ok bv =>
        match requireVal (setKey p "default_batch_size" bv)
            "condense_transformer_input" with
        | .error e => .error e
        | .ok ct =>
          if truthy ct then
            match requireInt (setKey p "default_batch_size" bv)
                "transformer_input_size" with
            | .error e => .error e
            | .ok ti =>
              .ok (setKey (setKey p "default_batch_size" bv)
                "hidden_size" (.vInt ti))
          else .ok (setKey p "default_batch_size" bv)
    else .ok p

/-- Merge loop of `modify_params` (lines 202-204): add each preset
hyperparameter, in table order, only when its key is not already
present. -/
def mergePreset : Params → Params → Params
  | p, [] => p
  | p, (k, v) :: rest =>
    if hasKey p k then mergePreset p rest
    else mergePreset (setKey p k v) rest

/-- Stage 7 of `modify_params`: for any transformer-family model, merge
in the base transformer hyperparameter preset keyed by
`transformer_model_size` and the GPU count. -/
def stageMerge (env : Env) (p : Params) : Except String Params :=
  match requireStr p "model_name" with
  | .error e => .error e
  | .ok mn =>
    if containsSub "transformer" mn then
      match requireStr p "transformer_model_size" with
      | .error e => .error e
      | .ok ms => .ok (mergePreset p (env.getModelParams ms env.numGpus))
    else .ok p

/-- All of `modify_params` before the final transformer-preset merge:
the state this produces is the state "when modify_params reaches the
transformer-preset merge step". -/
def modifyParamsPre (env : Env) (tpu tpuTopology : Option String)
    (p : Params) : Except String Params :=
  match stageDataset env p with
  | .error e => .error e
  | .ok p1 =>
    match stageHardware env tpu tpuTopology p1 with
    | .error e => .error e
    | .ok p2 =>
      match stageShape env p2 with
      | .error e => .error e
      | .ok p3 =>
        match stageHiddenSize p3 with
        | .error e => .error e
        | .ok p4 =>
          match stageEvenFix p4 with
          | .error e => .error e
          | .ok p5 => stageModelSpecific p5

/-- Embedding of `modify_params` (model_utils.py lines 117-204). -/
def modifyParams (env : Env) (tpu tpuTopology : Option String)
    (p : Params) : Except String Params :=
  match modifyParamsPre env tpu tpuTopology p with
  | .error e => .error e
  | .ok q => stageMerge env q

/-- Lookup inside the result of a run that may have failed; `none` both
for an error outcome and for an absent key. -/
def resultLookup (r : Except String Params) (k : String) : Option Value :=
  match r with
  | .ok q => lookupP q k
  | .error _ => none

/-- Embedding of `read_params_from_json` (model_utils.py lines 256-267)
applied to the decoded JSON content: when the stored `dtype` field is
truthy it is deleted and re-set to the canonical floating-point type. -/
def readParamsFromJson (fileParams : Params) : Except String Params :=
  match requireVal fileParams "dtype" with
  | .error e => .error e
  | .ok d =>
    if truthy d then
      .ok (setKey (delKey fileParams "dtype") "dtype" TF_DATA_TYPE)
    else .ok fileParams

/-! ### Metrics (`get_deepconsensus_metrics`, model_utils.py lines 36-52) -/

/-- One Keras metric object, identified by its constructor kind, its
per-class target value when applicable, and its name. -/
inductive Metric where
  | sparseCategoricalAccuracy (name : String)
  | perExampleAccuracy (name : String)
  | perClassAccuracy (classValue : Nat) (name : String)
deriving DecidableEq, Repr

/-- Position of a string in a list, mirroring Python `VOCAB.index` for
elements that are present. -/
def indexOfStr (x : String) : List String → Nat
  | [] => 0
  | y :: ys => if y = x then 0 else 1 + indexOfStr x ys

/-- Lookup in a string-to-Nat association list (a Python dict whose
values are class indices). -/
def lookupN : List (String × Nat) → String → Option Nat
  | [], _ => none
  | (k2, v) :: rest, k => if k2 = k then some v else lookupN rest k

/-- Dict assignment for a string-to-Nat association list. -/
def setKeyN : List (String × Nat) → String → Nat → List (String × Nat)
  | [], k, v => [(k, v)]
  | (k2, v2) :: rest, k, v =>
      if k2 = k then (k, v) :: rest else (k2, v2) :: setKeyN rest k v

/-- Dict deletion for a string-to-Nat association list. -/
def delKeyN : List (String × Nat) → String → List (String × Nat)
  | [], _ => []
  | (k2, v2) :: rest, k =>
      if k2 = k then rest else (k2, v2) :: delKeyN rest k

/-- The `class_to_name` dict of `get_deepconsensus_metrics`: every
vocabulary symbol mapped to its class index, then the gap/pad symbol's
index re-keyed under the fixed label `gap_or_pad` and the gap/pad
symbol's own entry deleted. -/
def classToName : List (String × Nat) :=
  let m := VOCAB.map (fun b => (b, indexOfStr b VOCAB))
  let i := (lookupN m GAP_OR_PAD).getD 0
  delKeyN (setKeyN m "gap_or_pad" i) GAP_OR_PAD

/-- Embedding of `get_deepconsensus_metrics` (default `name_prefix` is
the empty string): overall accuracy, whole-example accuracy, then one
per-class accuracy metric per `class_to_name` entry in dict order. -/
def getDeepconsensusMetrics (namePfx : String) : List Metric :=
  [Metric.sparseCategoricalAccuracy (namePfx ++ "accuracy"),
   Metric.perExampleAccuracy (namePfx ++ "per_example_accuracy")] ++
  classToName.map (fun nv => Metric.perClassAccuracy nv.2 (namePfx ++ nv.1))

/-! ### Interactive analysis helpers (colab_utils.py) -/

/-- The gap/pad symbol as a character; `GAP_OR_PAD` is the one-character
string of this character. -/
def gapChar : Char := ' '

/-- Embedding of `remove_gaps` (colab_utils.py lines 44-47):
`seq.replace(dc_constants.GAP_OR_PAD, '')`, which for the one-character
gap/pad string removes exactly the occurrences of that character. -/
def removeGaps (seq : String) : String :=
  String.mk (seq.data.filter (fun c => c ≠ gapChar))

/-- Embedding of `check_has_errors` (colab_utils.py lines 67-69): true
when the gap-stripped label and prediction differ. -/
def checkHasErrors (label pred : String) : Bool :=
  removeGaps label != removeGaps pred

/-! ### Majority-vote baseline entry point
(run_majority_vote_model.py) -/

/-- Input reading mode chosen by the `proto_class` flag: either direct
DeepConsensusInput records, or tf.Example records plus the
`example_height` re-derived from one sample file before decoding. -/
inductive ReadStage where
  | readDeepConsensusInput (path : String)
  | readTfExampleThenExtract (path : String) (exampleHeight : Int)
deriving DecidableEq, Repr

/-- Structure of the constructed majority-vote pipeline: the read stage,
the optional windowing width, and the optional hard-example output
location (present only when error-writing is enabled). -/
structure PipelineDesc where
  readStage : ReadStage
  windowWidth : Option Int
  hardExampleSink : Option String
deriving DecidableEq, Repr

/-- Path rewrite used before probing the example height:
`input_tfrecords_path.replace('@*.tfrecords.gz', '')`. -/
def mvModifiedPath (inputPath : String) : String :=
  inputPath.replace "@*.tfrecords.gz" ""

/-- Embedding of `create_pipeline`'s pipeline construction
(run_majority_vote_model.py lines 92-168): dispatch on `proto_class`
(unknown values raise ValueError), optional windowing, majority vote and
match counting, and — when `write_errors` is set — the hard-example sink
under `deepconsensus/tf_examples` or `deepconsensus/deepconsensus`. -/
def buildMvPipeline (env : Env) (inputPath : String)
    (exampleWidth : Option Int) (writeErrors : Bool)
    (outputPath : Option String) (protoClass : String) :
    Except String PipelineDesc :=
  match
    (if protoClass = "DeepConsensusInput" then
      Except.ok (ReadStage.readDeepConsensusInput inputPath)
    else if protoClass = "Example" then
      match extractExampleHeight env (mvModifiedPath inputPath) with
      | .error e => Except.error e
      | .ok h => Except.ok (ReadStage.readTfExampleThenExtract inputPath h)
    else
      Except.error ("ValueError: Unexpected record type: " ++ protoClass))
  with
  | .error e => .error e
  | .ok rs =>
    if writeErrors then
      match outputPath with
      | none => .error "TypeError: output_path is None"
      | some op =>
        .ok ⟨rs, exampleWidth,
          some (op ++ "/" ++
            (if protoClass = "Example" then "deepconsensus/tf_examples"
             else "deepconsensus/deepconsensus"))⟩
    else .ok ⟨rs, exampleWidth, none⟩

/-- Embedding of the flag validation at the top of `main`
(run_majority_vote_model.py lines 177-181): `input_tfrecords_path` is
required, and `output_path` is required whenever `write_errors` is
set. -/
def mainFlagCheck (inputTfrecordsPath : Option String) (writeErrors : Bool)
    (outputPath : Option String) : Except String Unit :=
  match inputTfrecordsPath with
  | none => .error "UsageError: Must specify --input_tfrecords_path."
  | some _ =>
    if writeErrors && outputPath.isNone then
      .error "UsageError: Must specify --output_path if --write_errors is True."
    else .ok ()

/-! ### Result-table aggregation (`get_results_df`,
colab_utils.py lines 204-228) -/

/-- External world of `get_results_df`: the file glob for one experiment
number substituted into the pattern, and the parsed rows of one CSV
file. -/
structure ResEnv where
  glob : Int → List String
  readCsv : String → List (List String)

/-- One output row of `get_results_df`; the two tag columns that the
code appends and moves to the front are explicit fields, and the
remaining CSV cells are carried as strings (the final numeric rounding
to `decimals` places is not modelled — no claim depends on cell
values). -/
structure ResRow where
  datasetType : String
  experimentAndWorkUnit : String
  cells : List String
deriving DecidableEq, Repr

/-- Joins path components with `/`, mirroring `'/'.join`. -/
def joinSlash : List String → String
  | [] => ""
  | [s] => s
  | s :: rest => s ++ "/" ++ joinSlash rest

/-- The `experiment_and_work_unit` tag:
`'/'.join(inference_csv.split('/')[-3:-1])`. -/
def workUnitTag (f : String) : String :=
  let parts := (splitOnChar '/' f.data).map (fun l => String.mk l)
  joinSlash ((parts.take (parts.length - 1)).drop (parts.length - 3))

/-- Processing of one matched CSV inside `get_results_df`: read the
first two rows (`nrows=2`), tag them with the work-unit identifier and
with `dataset_type` values `eval` and `hard_eval`; assigning the
two-element `dataset_type` column to a dataframe with fewer than two
rows raises a length-mismatch ValueError in pandas. -/
def processCsv (env : ResEnv) (f : String) : Except String (List ResRow) :=
  match (env.readCsv f).take 2 with
  | [r1, r2] =>
    .ok [⟨"eval", workUnitTag f, r1⟩, ⟨"hard_eval", workUnitTag f, r2⟩]
  | _ => .error "ValueError: Length of values does not match length of index"

/-- The two tagged rows contributed by one successfully processed CSV
(the ok payload of `processCsv`). -/
def csvRows (env : ResEnv) (f : String) : List ResRow :=
  match (env.readCsv f).take 2 with
  | [r1, r2] =>
    [⟨"eval", workUnitTag f, r1⟩, ⟨"hard_eval", workUnitTag f, r2⟩]
  | _ => []

/-- Sequential processing of the matched CSV files in order, stopping at
the first raised error, as the nested Python loops do. -/
def mapExceptCsv (env : ResEnv) : List String → Except String (List (List ResRow))
  | [] => .ok []
  | f :: fs =>
    match processCsv env f with
    | .error e => .error e
    | .ok rs =>
      match mapExceptCsv env fs with
      | .error e => .error e
      | .ok rest => .ok (rs :: rest)

/-- Embedding of `get_results_df`: every matched CSV of every listed
experiment contributes its two tagged rows in order, and the final
`assert all_lines is not None` fails when no file matched at all.  The
column reorder is represented by the explicit tag fields of `ResRow`. -/
def getResultsDf (experiments : List Int) (env : ResEnv) :
    Except String (List ResRow) :=
  match mapExceptCsv env (experiments.flatMap (fun e => env.glob e)) with
  | .error e => .error e
  | .ok rowss =>
    if (experiments.flatMap (fun e => env.glob e)).isEmpty then
      .error "AssertionError: all_lines is not None"
    else .ok rowss.flatten

/-! ### Concrete fixtures used by witnesses and counterexamples -/

/-- Environment with no GPUs and a first-record shape of
`[85, 100, 1]`. -/
def envConv : Env where
  numGpus := 0
  recordShape := fun _ => [85, 100, 1]
  trainExamples := 0
  evalExamples := 0
  getModelParams := fun _ _ => []

/-- Convolutional-model configuration with `max_passes = 20`. -/
def pConv : Params :=
  [("model_name", .vStr "conv_net"), ("batch_size", .vInt 2),
   ("train_path", .vStr "data"), ("max_passes", .vInt 20)]

/-- Fully-connected-model configuration with batch size 8 and TPU scale
factor 2. -/
def pFc : Params :=
  [("model_name", .vStr "fc"), ("batch_size", .vInt 8),
   ("tpu_scale_factor", .vInt 2), ("train_path", .vStr "data"),
   ("max_passes", .vInt 20)]

/-- Environment with no GPUs, a first-record shape of `[17, 50, 1]` and
a two-entry transformer hyperparameter preset. -/
def envTrans : Env where
  numGpus := 0
  recordShape := fun _ => [17, 50, 1]
  trainExamples := 0
  evalExamples := 0
  getModelParams := fun _ _ => [("extra", .vInt 7), ("batch_size", .vInt 999)]

/-- Transformer-model configuration with `max_passes = 3`. -/
def pTrans : Params :=
  [("model_name", .vStr "transformer"), ("batch_size", .vInt 2),
   ("train_path", .vStr "data"), ("max_passes", .vInt 3),
   ("transformer_model_size", .vStr "base")]

/-- State of `pTrans` at the transformer-preset merge step of
`modify_params` under `envTrans`. -/
def qTransPre : Params :=
  [("model_name", .vStr "transformer"), ("batch_size", .vInt 2),
   ("train_path", .vStr "data"), ("max_passes", .vInt 3),
   ("transformer_model_size", .vStr "base"), ("max_length", .vInt 50),
   ("hidden_size", .vInt 18), ("default_batch_size", .vInt 2)]

/-- Environment with two GPUs. -/
def envGpu : Env where
  numGpus := 2
  recordShape := fun _ => [85, 100, 1]
  trainExamples := 0
  evalExamples := 0
  getModelParams := fun _ _ => []

/-- Decoded content of a `params.json` file with a serialized dtype. -/
def pJson : Params :=
  [("dtype", .vStr "float64"), ("batch_size", .vInt 4)]

/-- Result-table environment in which no experiment matches any file. -/
def resEnvEmpty : ResEnv where
  glob := fun _ => []
  readCsv := fun _ => []

/-- Result-table environment in which experiment 1 matches one CSV file
with three data rows. -/
def resEnvOne : ResEnv where
  glob := fun e => if e = 1 then ["x/e1/wu0/inference.csv"] else []
  readCsv := fun _ => [["0.99", "0.98"], ["0.88", "0.87"], ["junk", "junk"]]

/-! ### Association-list lemmas -/

theorem lookupP_setKey_self (p : Params) (k : String) (v : Value) :
    lookupP (setKey p k v) k = some v := by
  induction p with
  | nil => simp [setKey, lookupP]
  | cons hd tl ih =>
    obtain ⟨k2, v2⟩ := hd
    by_cases h : k2 = k
    · simp [setKey, h, lookupP]
    · simp [setKey, h, lookupP, ih]

theorem lookupP_setKey_ne (p : Params) (k kq : String) (v : Value)
    (h : kq ≠ k) : lookupP (setKey p k v) kq = lookupP p kq := by
  have hne : k ≠ kq := fun hh => h hh.symm
  induction p with
  | nil => simp [setKey, lookupP, hne]
  | cons hd tl ih =>
    obtain ⟨k2, v2⟩ := hd
    by_cases h2 : k2 = k
    · subst h2
      simp [setKey, lookupP, hne]
    · simp [setKey, h2, lookupP, ih]

theorem lookupP_delKey_ne (p : Params) (k kq : String) (h : kq ≠ k) :
    lookupP (delKey p k) kq = lookupP p kq := by
  have hne : k ≠ kq := fun hh => h hh.symm
  induction p with
  | nil => simp [delKey]
  | cons hd tl ih =>
    obtain ⟨k2, v2⟩ := hd
    by_cases h2 : k2 = k
    · subst h2
      simp [delKey, lookupP, hne]
    · simp [delKey, h2, lookupP, ih]

theorem mergePreset_present (pre : Params) (p : Params) (k : String)
    (v : Value) (h : lookupP p k = some v) :
    lookupP (mergePreset p pre) k = some v := by
  induction pre generalizing p with
  | nil => simpa [mergePreset] using h
  | cons hd rest ih =>
    obtain ⟨k2, v2⟩ := hd
    by_cases hmem : hasKey p k2
    · simpa [mergePreset, hmem] using ih p h
    · simp only [mergePreset, hmem, if_false]
      apply ih
      by_cases heq : k = k2
      · subst heq
        exact absurd (by simp [hasKey, h]) hmem
      · rw [lookupP_setKey_ne _ _ _ _ heq]
        exact h

theorem mergePreset_absent (pre : Params) (p : Params) (k : String)
    (h : lookupP p k = none) :
    lookupP (mergePreset p pre) k = lookupP pre k := by
  induction pre generalizing p with
  | nil => simpa [mergePreset, lookupP] using h
  | cons hd rest ih =>
    obtain ⟨k2, v2⟩ := hd
    by_cases heq : k2 = k
    · subst heq
      have hmem : ¬ hasKey p k2 := by simp [hasKey, h]
      simp only [mergePreset, hmem, if_false, lookupP, if_pos rfl]
      exact mergePreset_present _ _ _ _ (lookupP_setKey_self p k2 v2)
    · by_cases hmem : hasKey p k2
      · simp only [mergePreset, hmem, if_true, lookupP, if_neg heq]
        exact ih p h
      · simp only [mergePreset, hmem, if_false, lookupP, if_neg heq]
        apply ih
        rw [lookupP_setKey_ne _ _ _ _ (fun hh => heq hh.symm)]
        exact h

/-! ### Stage frame lemmas

Each stage of `modify_params` writes to a fixed set of keys; lookups of
every other key pass through unchanged. -/

theorem setDataset_frame (env : Env) (p q : Params) (k : String)
    (hk : k ∉ ["train_path", "eval_path", "hard_eval_path", "test_path",
      "train_data_size", "eval_data_size", "max_passes"])
    (h : setDataset env p = .ok q) : lookupP q k = lookupP p k := by
  simp only [List.mem_cons, List.not_mem_nil, or_false, not_or] at hk
  obtain ⟨h1, h2, h3, h4, h5, h6, h7⟩ := hk
  unfold setDataset at h
  split at h
  · exact absurd h (by simp)
  · simp only [Except.ok.injEq] at h
    subst h
    rw [lookupP_setKey_ne _ _ _ _ h7, lookupP_setKey_ne _ _ _ _ h6,
      lookupP_setKey_ne _ _ _ _ h5, lookupP_setKey_ne _ _ _ _ h4,
      lookupP_setKey_ne _ _ _ _ h3, lookupP_setKey_ne _ _ _ _ h2,
      lookupP_setKey_ne _ _ _ _ h1]

theorem stageDataset_frame (env : Env) (p q : Params) (k : String)
    (hk : k ∉ ["train_path", "eval_path", "hard_eval_path", "test_path",
      "train_data_size", "eval_data_size", "max_passes"])
    (h : stageDataset env p = .ok q) : lookupP q k = lookupP p k := by
  unfold stageDataset at h
  split at h
  · split at h
    · exact setDataset_frame env p q k hk h
    · simp only [Except.ok.injEq] at h
      subst h; rfl
  · simp only [Except.ok.injEq] at h
    subst h; rfl

theorem stageHardware_frame (env : Env) (tpu topo : Option String)
    (p q : Params) (k : String) (hk : k ≠ "batch_size")
    (h : stageHardware env tpu topo p = .ok q) :
    lookupP q k = lookupP p k := by
  unfold stageHardware at h
  split at h
  · split at h
    · exact absurd h (by simp)
    · split at h
      · exact absurd h (by simp)
      · simp only [Except.ok.injEq] at h
        subst h
        rw [lookupP_setKey_ne _ _ _ _ hk]
  · split at h
    · simp only [Except.ok.injEq] at h
      subst h; rfl
    · split at h
      · exact absurd h (by simp)
      · split at h
        · exact absurd h (by simp)
        · split at h
          · exact absurd h (by simp)
          · split at h
            · exact absurd h (by simp)
            · split at h
              · simp only [Except.ok.injEq] at h
                subst h
                rw [lookupP_setKey_ne _ _ _ _ hk,
                  lookupP_setKey_ne _ _ _ _ hk]
              · exact absurd h (by simp)

theorem stageShape_frame (env : Env) (p q : Params) (k : String)
    (hk : k ≠ "max_length") (h : stageShape env p = .ok q) :
    lookupP q k = lookupP p k := by
  unfold stageShape at h
  split at h
  · exact absurd h (by simp)
  · split at h
    · exact absurd h (by simp)
    · simp only [Except.ok.injEq] at h
      subst h
      rw [lookupP_setKey_ne _ _ _ _ hk]

theorem stageHiddenSize_frame (p q : Params) (k : String)
    (hk : k ≠ "hidden_size") (h : stageHiddenSize p = .ok q) :
    lookupP q k = lookupP p k := by
  unfold stageHiddenSize at h
  split at h
  · exact absurd h (by simp)
  · split at h
    · split at h
      · exact absurd h (by simp)
      · simp only [Except.ok.injEq] at h
        subst h
        rw [lookupP_setKey_ne _ _ _ _ hk]
    · split at h
      · exact absurd h (by simp)
      · split at h
        · exact absurd h (by simp)
        · simp only [Except.ok.injEq] at h
          subst h
          rw [lookupP_setKey_ne _ _ _ _ hk]

theorem stageEvenFix_frame (p q : Params) (k : String)
    (hk : k ≠ "hidden_size") (h : stageEvenFix p = .ok q) :
    lookupP q k = lookupP p k := by
  unfold stageEvenFix at h
  split at h
  · exact absurd h (by simp)
  · split at h
    · split at h
      · exact absurd h (by simp)
      · split at h
        · simp only [Except.ok.injEq] at h
          subst h
          rw [lookupP_setKey_ne _ _ _ _ hk]
        · simp only [Except.ok.injEq] at h
          subst h; rfl
    · simp only [Except.ok.injEq] at h
      subst h; rfl

theorem stageModelSpecific_frame (p q : Params) (k : String)
    (hk1 : k ≠ "hidden_size") (hk2 : k ≠ "default_batch_size")
    (h : stageModelSpecific p = .ok q) : lookupP q k = lookupP p k := by
  unfold stageModelSpecific at h
  split at h
  · exact absurd h (by simp)
  · split at h
    · split at h
      · exact absurd h (by simp)
      · simp only [Except.ok.injEq] at h
        subst h
        rw [lookupP_setKey_ne _ _ _ _ hk1]
    · split at h
      · split at h
        · exact absurd h (by simp)
        · simp only [Except.ok.injEq] at h
          subst h
          rw [lookupP_setKey_ne _ _ _ _ hk2]
      · split at h
        · split at h
          · exact absurd h (by simp)
          · split at h
            · exact absurd h (by simp)
            · split at h
              · split at h
                · exact absurd h (by simp)
                · simp only [Except.ok.injEq] at h
                  subst h
                  rw [lookupP_setKey_ne _ _ _ _ hk1,
                    lookupP_setKey_ne _ _ _ _ hk2]
              · simp only [Except.ok.injEq] at h
                subst h
                rw [lookupP_setKey_ne _ _ _ _ hk2]
        · simp only [Except.ok.injEq] at h
          subst h; rfl

theorem stageMerge_present (env : Env) (p q : Params) (k : String)
    (v : Value) (hv : lookupP p k = some v)
    (h : stageMerge env p = .ok q) : lookupP q k = some v := by
  unfold stageMerge at h
  split at h
  · exact absurd h (by simp)
  · split at h
    · split at h
      · exact absurd h (by simp)
      · simp only [Except.ok.injEq] at h
        subst h
        exact mergePreset_present _ _ _ _ hv
    · simp only [Except.ok.injEq] at h
      subst h
      exact hv

/-! ### Attribute-access inversion lemmas -/

theorem requireVal_of_lookupP (p : Params) (k : String) (v : Value)
    (h : lookupP p k = some v) : requireVal p k = .ok v := by
  unfold requireVal
  rw [h]

theorem requireStr_of_lookupP (p : Params) (k : String) (s : String)
    (h : lookupP p k = some (.vStr s)) : requireStr p k = .ok s := by
  unfold requireStr
  rw [requireVal_of_lookupP p k _ h]

theorem requireInt_of_pInt (p : Params) (k : String) (n : Int)
    (h : pInt p k = some n) : requireInt p k = .ok n := by
  unfold pInt at h
  cases hv : lookupP p k with
  | none => rw [hv] at h; exact absurd h (by simp)
  | some v =>
    rw [hv] at h
    have ha : asInt v = some n := h
    unfold requireInt
    rw [requireVal_of_lookupP p k v hv]
    simp [ha]

theorem requireInt_ok_inv (p : Params) (k : String) (n : Int)
    (h : requireInt p k = .ok n) :
    ∃ v, lookupP p k = some v ∧ asInt v = some n := by
  cases hv : lookupP p k with
  | none =>
    have hval : requireVal p k = .error ("AttributeError: " ++ k) := by
      unfold requireVal
      rw [hv]
    unfold requireInt at h
    rw [hval] at h
    exact absurd h (by simp)
  | some v =>
    unfold requireInt at h
    rw [requireVal_of_lookupP p k v hv] at h
    refine ⟨v, rfl, ?_⟩
    cases ha : asInt v with
    | none => simp [ha] at h
    | some m =>
      simp [ha] at h
      exact congrArg some h

theorem pInt_of_lookupP_eq (p q : Params) (k : String)
    (h : lookupP q k = lookupP p k) : pInt q k = pInt p k := by
  unfold pInt
  rw [h]

/-! ### Stage computation lemmas -/

theorem stageDataset_of_none (env : Env) (p : Params)
    (h : lookupP p "tf_dataset" = none) : stageDataset env p = .ok p := by
  unfold stageDataset
  rw [h]

theorem stageHardware_id_of_no_hw (env : Env) (topo : Option String)
    (p : Params) (h : env.numGpus = 0) :
    stageHardware env none topo p = .ok p := by
  unfold stageHardware
  simp [h]

theorem stageHardware_gpu_tpu_error (env : Env) (tpu topo : Option String)
    (p : Params) (hgpu : 0 < env.numGpus) (htr : pyTruthyOpt tpu = true) :
    stageHardware env tpu topo p = .error "AssertionError: not tpu" := by
  unfold stageHardware
  simp [hgpu, htr]

/-- Decomposition of a successful `modify_params` run into its seven
successful stages. -/
theorem modifyParams_ok_elim (env : Env) (tpu topo : Option String)
    (p q : Params) (h : modifyParams env tpu topo p = .ok q) :
    ∃ p1 p2 p3 p4 p5 p6,
      stageDataset env p = .ok p1 ∧
      stageHardware env tpu topo p1 = .ok p2 ∧
      stageShape env p2 = .ok p3 ∧
      stageHiddenSize p3 = .ok p4 ∧
      stageEvenFix p4 = .ok p5 ∧
      stageModelSpecific p5 = .ok p6 ∧
      stageMerge env p6 = .ok q := by
  unfold modifyParams modifyParamsPre at h
  cases h1 : stageDataset env p with
  | error e => simp [h1] at h
  | ok p1 =>
    simp only [h1] at h
    cases h2 : stageHardware env tpu topo p1 with
    | error e => simp [h2] at h
    | ok p2 =>
      simp only [h2] at h
      cases h3 : stageShape env p2 with
      | error e => simp [h3] at h
      | ok p3 =>
        simp only [h3] at h
        cases h4 : stageHiddenSize p3 with
        | error e => simp [h4] at h
        | ok p4 =>
          simp only [h4] at h
          cases h5 : stageEvenFix p4 with
          | error e => simp [h5] at h
          | ok p5 =>
            simp only [h5] at h
            cases h6 : stageModelSpecific p5 with
            | error e => simp [h6] at h
            | ok p6 =>
              simp only [h6] at h
              exact ⟨p1, p2, p3, p4, p5, p6, rfl, h2, h3, h4, h5, h6, h⟩

/-- When the hardware stage is bound to fail, the whole derivation pass
fails. -/
theorem modifyParams_error_of_stageHardware (env : Env)
    (tpu topo : Option String) (p : Params)
    (h : ∀ p1, stageDataset env p = .ok p1 →
      ∃ e, stageHardware env tpu topo p1 = .error e) :
    ∃ e, modifyParams env tpu topo p = .error e := by
  unfold modifyParams modifyParamsPre
  cases h1 : stageDataset env p with
  | error e => exact ⟨e, by simp⟩
  | ok p1 =>
    obtain ⟨e, he⟩ := h p1 h1
    exact ⟨e, by simp [he]⟩

theorem pInt_of_requireInt (p : Params) (k : String) (n : Int)
    (h : requireInt p k = .ok n) : pInt p k = some n := by
  obtain ⟨v, hv, ha⟩ := requireInt_ok_inv p k n h
  unfold pInt
  rw [hv]
  exact ha

/-- The stages after the hardware stage never write `batch_size`, so a
batch-size value present after hardware scaling survives to the final
configuration. -/
theorem batch_value_propagates (env : Env) (p2 p3 p4 p5 p6 q : Params)
    (v : Value) (hb : lookupP p2 "batch_size" = some v)
    (h3 : stageShape env p2 = .ok p3) (h4 : stageHiddenSize p3 = .ok p4)
    (h5 : stageEvenFix p4 = .ok p5) (h6 : stageModelSpecific p5 = .ok p6)
    (h7 : stageMerge env p6 = .ok q) : lookupP q "batch_size" = some v := by
  have b3 : lookupP p3 "batch_size" = some v := by
    rw [stageShape_frame env p2 p3 _ (by decide) h3]
    exact hb
  have b4 : lookupP p4 "batch_size" = some v := by
    rw [stageHiddenSize_frame p3 p4 _ (by decide) h4]
    exact b3
  have b5 : lookupP p5 "batch_size" = some v := by
    rw [stageEvenFix_frame p4 p5 _ (by decide) h5]
    exact b4
  have b6 : lookupP p6 "batch_size" = some v := by
    rw [stageModelSpecific_frame p5 p6 _ (by decide) (by decide) h6]
    exact b5
  exact stageMerge_present env p6 q _ v b6 h7

/-! ### Claim theorems -/

/-- C1 counterexample: with `model_name = conv_net` and
`max_passes = 20`, the derived row-layout total is 85, which is at least
32, yet `modify_params` leaves `hidden_size = 32`, not 85 — so the final
`hidden_size` is not the derived value floored at 32. -/
theorem conv_net_hidden_size_counterexample :
    resultLookup (modifyParams envConv none none pConv) "hidden_size" =
      some (.vInt 32) ∧
    getTotalRows 20 = .ok 85 ∧ (32 : Int) ≤ 85 ∧ (32 : Int) ≠ 85 :=
  ⟨by rfl, by rfl, by decide, by decide⟩

/-- C1 (amended): for a `conv_net` configuration (with no dataset
override of `max_passes`), the architecture-specific fix-up sets the
final `hidden_size` to `max(32, max_passes)`, discarding the previously
derived row-layout total. -/
theorem conv_net_hidden_size_amended (env : Env) (tpu topo : Option String)
    (p q : Params) (mp : Int)
    (hds : lookupP p "tf_dataset" = none)
    (hmn : lookupP p "model_name" = some (.vStr "conv_net"))
    (hmp : pInt p "max_passes" = some mp)
    (hok : modifyParams env tpu topo p = .ok q) :
    lookupP q "hidden_size" = some (.vInt (max 32 mp)) := by
  obtain ⟨p1, p2, p3, p4, p5, p6, h1, h2, h3, h4, h5, h6, h7⟩ :=
    modifyParams_ok_elim env tpu topo p q hok
  have e1 : p = p1 := by
    rw [stageDataset_of_none env p hds] at h1
    exact Except.ok.inj h1
  subst e1
  have m2 : lookupP p2 "model_name" = some (.vStr "conv_net") := by
    rw [stageHardware_frame env tpu topo p p2 _ (by decide) h2]
    exact hmn
  have m3 : lookupP p3 "model_name" = some (.vStr "conv_net") := by
    rw [stageShape_frame env p2 p3 _ (by decide) h3]
    exact m2
  have m4 : lookupP p4 "model_name" = some (.vStr "conv_net") := by
    rw [stageHiddenSize_frame p3 p4 _ (by decide) h4]
    exact m3
  have m5 : lookupP p5 "model_name" = some (.vStr "conv_net") := by
    rw [stageEvenFix_frame p4 p5 _ (by decide) h5]
    exact m4
  have n2 : pInt p2 "max_passes" = some mp := by
    rw [pInt_of_lookupP_eq p p2 _
      (stageHardware_frame env tpu topo p p2 _ (by decide) h2)]
    exact hmp
  have n3 : pInt p3 "max_passes" = some mp := by
    rw [pInt_of_lookupP_eq p2 p3 _ (stageShape_frame env p2 p3 _ (by decide) h3)]
    exact n2
  have n4 : pInt p4 "max_passes" = some mp := by
    rw [pInt_of_lookupP_eq p3 p4 _ (stageHiddenSize_frame p3 p4 _ (by decide) h4)]
    exact n3
  have n5 : pInt p5 "max_passes" = some mp := by
    rw [pInt_of_lookupP_eq p4 p5 _ (stageEvenFix_frame p4 p5 _ (by decide) h5)]
    exact n4
  have h6c : stageModelSpecific p5 =
      .ok (setKey p5 "hidden_size" (.vInt (max 32 mp))) := by
    unfold stageModelSpecific
    simp [requireStr_of_lookupP p5 _ _ m5, requireInt_of_pInt p5 _ _ n5]
  rw [h6c] at h6
  have e6 : setKey p5 "hidden_size" (.vInt (max 32 mp)) = p6 :=
    Except.ok.inj h6
  have m6 : lookupP p6 "model_name" = some (.vStr "conv_net") := by
    rw [← e6, lookupP_setKey_ne _ _ _ _ (by decide)]
    exact m5
  have hcs : containsSub "transformer" "conv_net" = false := by decide
  have h7c : stageMerge env p6 = .ok p6 := by
    unfold stageMerge
    simp [requireStr_of_lookupP p6 _ _ m6, hcs]
  rw [h7c] at h7
  have e7 : p6 = q := Except.ok.inj h7
  rw [← e7, ← e6, lookupP_setKey_self]

/-- C1 witness: the amended statement instantiated on the concrete
convolutional configuration. -/
theorem conv_net_hidden_size_amended_witness :
    lookupP [("model_name", Value.vStr "conv_net"),
      ("batch_size", Value.vInt 2), ("train_path", Value.vStr "data"),
      ("max_passes", Value.vInt 20), ("max_length", Value.vInt 100),
      ("hidden_size", Value.vInt 32)] "hidden_size" =
      some (.vInt (max 32 20)) :=
  conv_net_hidden_size_amended envConv none none pConv _ 20
    (by rfl) (by rfl) (by rfl) (by rfl)

/-- C8: when `modify_params` runs with zero GPUs present and no TPU
requested, the `batch_size` field is left unchanged by the derivation
pass. -/
theorem no_hardware_no_batch_scaling (env : Env) (topo : Option String)
    (p q : Params) (v : Value) (henv : env.numGpus = 0)
    (hb : lookupP p "batch_size" = some v)
    (hok : modifyParams env none topo p = .ok q) :
    lookupP q "batch_size" = some v := by
  obtain ⟨p1, p2, p3, p4, p5, p6, h1, h2, h3, h4, h5, h6, h7⟩ :=
    modifyParams_ok_elim env none topo p q hok
  have b1 : lookupP p1 "batch_size" = some v := by
    rw [stageDataset_frame env p p1 _ (by decide) h1]
    exact hb
  have e2 : p1 = p2 := by
    rw [stageHardware_id_of_no_hw env topo p1 henv] at h2
    exact Except.ok.inj h2
  subst e2
  exact batch_value_propagates env p1 p3 p4 p5 p6 q v b1 h3 h4 h5 h6 h7

/-- C8 witness: the statement instantiated on the concrete
convolutional configuration, whose batch size 2 is returned intact. -/
theorem no_hardware_no_batch_scaling_witness :
    lookupP [("model_name", Value.vStr "conv_net"),
      ("batch_size", Value.vInt 2), ("train_path", Value.vStr "data"),
      ("max_passes", Value.vInt 20), ("max_length", Value.vInt 100),
      ("hidden_size", Value.vInt 32)] "batch_size" =
      some (.vInt 2) :=
  no_hardware_no_batch_scaling envConv none pConv _ (.vInt 2)
    (by rfl) (by rfl) (by rfl)

/-- C3: with at least one GPU present, requesting a TPU (a non-empty
TPU name) makes `modify_params` fail with an error before any batch-size
scaling, while with GPUs present and no TPU requested the final
`batch_size` is the original one multiplied by the GPU count. -/
theorem gpu_tpu_mutual_exclusion :
    (∀ (env : Env) (s : String) (topo : Option String) (p : Params),
        0 < env.numGpus → s ≠ "" →
        ∃ e, modifyParams env (some s) topo p = .error e) ∧
    (∀ (env : Env) (topo : Option String) (p q : Params),
        0 < env.numGpus →
        modifyParams env none topo p = .ok q →
        ∃ bv b, lookupP p "batch_size" = some bv ∧ asInt bv = some b ∧
          lookupP q "batch_size" =
            some (.vInt (b * (env.numGpus : Int)))) := by
  constructor
  · intro env s topo p hgpu hs
    apply modifyParams_error_of_stageHardware
    intro p1 _
    refine ⟨_, stageHardware_gpu_tpu_error env (some s) topo p1 hgpu ?_⟩
    simp [pyTruthyOpt, bne_iff_ne, hs]
  · intro env topo p q hgpu hok
    obtain ⟨p1, p2, p3, p4, p5, p6, h1, h2, h3, h4, h5, h6, h7⟩ :=
      modifyParams_ok_elim env none topo p q hok
    unfold stageHardware at h2
    rw [if_pos hgpu] at h2
    simp only [pyTruthyOpt, Bool.false_eq_true, if_false] at h2
    cases hb : requireInt p1 "batch_size" with
    | error e => rw [hb] at h2; simp at h2
    | ok b =>
      rw [hb] at h2
      simp only [Except.ok.injEq] at h2
      obtain ⟨bv, hbv, hbva⟩ := requireInt_ok_inv p1 "batch_size" b hb
      have hbp : lookupP p "batch_size" = some bv := by
        rw [← stageDataset_frame env p p1 _ (by decide) h1]
        exact hbv
      have b2 : lookupP p2 "batch_size" =
          some (.vInt (b * (env.numGpus : Int))) := by
        rw [← h2]
        exact lookupP_setKey_self _ _ _
      exact ⟨bv, b, hbp, hbva,
        batch_value_propagates env p2 p3 p4 p5 p6 q _ b2 h3 h4 h5 h6 h7⟩

/-- C3 witness: with two GPUs, a requested TPU aborts the derivation,
and without a TPU the batch size 8 becomes 16. -/
theorem gpu_tpu_mutual_exclusion_witness :
    (∃ e, modifyParams envGpu (some "tpu0") none pFc = .error e) ∧
    (∃ bv b, lookupP pFc "batch_size" = some bv ∧ asInt bv = some b ∧
      lookupP [("model_name", Value.vStr "fc"),
        ("batch_size", Value.vInt 16), ("tpu_scale_factor", Value.vInt 2),
        ("train_path", Value.vStr "data"), ("max_passes", Value.vInt 20),
        ("max_length", Value.vInt 100), ("hidden_size", Value.vInt 85)]
        "batch_size" = some (.vInt (b * (2 : Int)))) :=
  ⟨gpu_tpu_mutual_exclusion.1 envGpu "tpu0" none pFc (by decide)
      (by decide),
   gpu_tpu_mutual_exclusion.2 envGpu none pFc _ (by decide) (by rfl)⟩

/-- C2 counterexample: the topology string `0x2` does not consist of two
positive integers, yet `modify_params` raises no error on it — the run
succeeds and the batch size is scaled to 0.  (With `-1x2` the batch size
would become negative, equally silently.) -/
theorem tpu_topology_nonpositive_counterexample :
    (modifyParams envConv (some "tpu0") (some "0x2") pFc).isOk = true ∧
    resultLookup (modifyParams envConv (some "tpu0") (some "0x2") pFc)
      "batch_size" = some (.vInt 0) ∧
    pyParseInt "0" = some 0 :=
  ⟨by rfl, by rfl, by rfl⟩

/-- C2 (amended): with no GPUs and a TPU requested, `modify_params`
multiplies `batch_size` first by `tpu_scale_factor` and then by
`N * M * 2` for a topology string whose parts parse as the integers `N`
and `M` (positive or not); it raises an error exactly when the topology
string is missing or does not split into exactly two integer-parsable
parts. -/
theorem tpu_batch_scaling_amended :
    (∀ (env : Env) (t s : String) (p q : Params) (n m : Int),
        env.numGpus = 0 →
        (splitOnX s).mapM pyParseInt = some [n, m] →
        modifyParams env (some t) (some s) p = .ok q →
        ∃ b sf, pInt p "batch_size" = some b ∧
          pInt p "tpu_scale_factor" = some sf ∧
          lookupP q "batch_size" = some (.vInt (b * sf * (n * m * 2)))) ∧
    (∀ (env : Env) (t s : String) (p : Params),
        env.numGpus = 0 →
        (∀ l, (splitOnX s).mapM pyParseInt = some l → l.length ≠ 2) →
        ∃ e, modifyParams env (some t) (some s) p = .error e) ∧
    (∀ (env : Env) (t : String) (p : Params),
        env.numGpus = 0 →
        ∃ e, modifyParams env (some t) none p = .error e) := by
  refine ⟨?_, ?_, ?_⟩
  · intro env t s p q n m henv hparse hok
    obtain ⟨p1, p2, p3, p4, p5, p6, h1, h2, h3, h4, h5, h6, h7⟩ :=
      modifyParams_ok_elim env (some t) (some s) p q hok
    unfold stageHardware at h2
    rw [if_neg (by simp [henv])] at h2
    cases hb : requireInt p1 "batch_size" with
    | error e => rw [hb] at h2; simp at h2
    | ok b =>
      rw [hb] at h2
      cases hsf : requireInt p1 "tpu_scale_factor" with
      | error e => rw [hsf] at h2; simp at h2
      | ok sf =>
        rw [hsf] at h2
        simp only [] at h2
        rw [hparse] at h2
        simp only [Except.ok.injEq] at h2
        have hbp : pInt p "batch_size" = some b := by
          rw [← pInt_of_lookupP_eq p p1 _
            (stageDataset_frame env p p1 _ (by decide) h1)]
          exact pInt_of_requireInt p1 _ b hb
        have hsp : pInt p "tpu_scale_factor" = some sf := by
          rw [← pInt_of_lookupP_eq p p1 _
            (stageDataset_frame env p p1 _ (by decide) h1)]
          exact pInt_of_requireInt p1 _ sf hsf
        have b2 : lookupP p2 "batch_size" =
            some (.vInt (b * sf * (n * m * 2))) := by
          rw [← h2]
          exact lookupP_setKey_self _ _ _
        exact ⟨b, sf, hbp, hsp,
          batch_value_propagates env p2 p3 p4 p5 p6 q _ b2 h3 h4 h5 h6 h7⟩
  · intro env t s p henv hbad
    apply modifyParams_error_of_stageHardware
    intro p1 _
    cases hb : requireInt p1 "batch_size" with
    | error e => exact ⟨e, by unfold stageHardware; simp [henv, hb]⟩
    | ok b =>
      cases hsf : requireInt p1 "tpu_scale_factor" with
      | error e => exact ⟨e, by unfold stageHardware; simp [henv, hb, hsf]⟩
      | ok sf =>
        cases hm : (splitOnX s).mapM pyParseInt with
        | none =>
          have hm2 : List.mapM.loop pyParseInt (splitOnX s) [] = none := hm
          exact ⟨"ValueError: invalid literal for int",
            by unfold stageHardware; simp [henv, hb, hsf, hm2]⟩
        | some l =>
          have hm2 : List.mapM.loop pyParseInt (splitOnX s) [] = some l := hm
          have hl := hbad l hm
          match l, hl, hm2 with
          | [], _, hm2 =>
            exact ⟨"AssertionError: len(tpu_topology_parts) == 2",
              by unfold stageHardware; simp [henv, hb, hsf, hm2]⟩
          | [a], _, hm2 =>
            exact ⟨"AssertionError: len(tpu_topology_parts) == 2",
              by unfold stageHardware; simp [henv, hb, hsf, hm2]⟩
          | [a, b2], hl, _ => exact absurd rfl hl
          | a :: b2 :: c :: rest, _, hm2 =>
            exact ⟨"AssertionError: len(tpu_topology_parts) == 2",
              by unfold stageHardware; simp [henv, hb, hsf, hm2]⟩
  · intro env t p henv
    apply modifyParams_error_of_stageHardware
    intro p1 _
    cases hb : requireInt p1 "batch_size" with
    | error e => exact ⟨e, by unfold stageHardware; simp [henv, hb]⟩
    | ok b =>
      cases hsf : requireInt p1 "tpu_scale_factor" with
      | error e => exact ⟨e, by unfold stageHardware; simp [henv, hb, hsf]⟩
      | ok sf =>
        exact ⟨"AssertionError: tpu_topology is not None",
          by unfold stageHardware; simp [henv, hb, hsf]⟩

/-- C2 witness: the amended statement instantiated on the topology
`4x2` (success with scaling 8 * 2 * 16 = 256), on the unparsable
topology `ab`, and on a missing topology. -/
theorem tpu_batch_scaling_amended_witness :
    (∃ b sf, pInt pFc "batch_size" = some b ∧
      pInt pFc "tpu_scale_factor" = some sf ∧
      lookupP [("model_name", Value.vStr "fc"),
        ("batch_size", Value.vInt 256), ("tpu_scale_factor", Value.vInt 2),
        ("train_path", Value.vStr "data"), ("max_passes", Value.vInt 20),
        ("max_length", Value.vInt 100), ("hidden_size", Value.vInt 85)]
        "batch_size" = some (.vInt (b * sf * (4 * 2 * 2)))) ∧
    (∃ e, modifyParams envConv (some "tpu0") (some "ab") pFc = .error e) ∧
    (∃ e, modifyParams envConv (some "tpu0") none pFc = .error e) :=
  ⟨tpu_batch_scaling_amended.1 envConv "tpu0" "4x2" pFc _ 4 2 (by rfl)
      (by rfl) (by rfl),
   tpu_batch_scaling_amended.2.1 envConv "tpu0" "ab" pFc (by rfl)
      (by
        intro l hl
        rw [show (splitOnX "ab").mapM pyParseInt = none from rfl] at hl
        exact Option.noConfusion hl),
   tpu_batch_scaling_amended.2.2 envConv "tpu0" pFc (by rfl)⟩

/-- C4: for a transformer-family model, the transformer-preset merge at
the end of `modify_params` never overwrites a key that is already
present when the merge step is reached, and a key absent at that point
receives exactly the preset's value for it. -/
theorem transformer_preset_merge_frame (env : Env)
    (tpu topo : Option String) (p q : Params) (mn ms : String)
    (hpre : modifyParamsPre env tpu topo p = .ok q)
    (hmn : lookupP q "model_name" = some (.vStr mn))
    (htr : containsSub "transformer" mn = true)
    (hms : lookupP q "transformer_model_size" = some (.vStr ms)) :
    ∃ r, modifyParams env tpu topo p = .ok r ∧
      (∀ k v, lookupP q k = some v → lookupP r k = some v) ∧
      (∀ k, lookupP q k = none →
        lookupP r k = lookupP (env.getModelParams ms env.numGpus) k) := by
  have hsm : stageMerge env q =
      .ok (mergePreset q (env.getModelParams ms env.numGpus)) := by
    unfold stageMerge
    simp [requireStr_of_lookupP q _ _ hmn, htr,
      requireStr_of_lookupP q _ _ hms]
  refine ⟨mergePreset q (env.getModelParams ms env.numGpus), ?_, ?_, ?_⟩
  · unfold modifyParams
    rw [hpre]
    exact hsm
  · intro k v hv
    exact mergePreset_present _ _ _ _ hv
  · intro k hk
    exact mergePreset_absent _ _ _ hk

/-- C4 witness: the concrete transformer run, in which the already-set
`batch_size = 2` survives the merge although the preset carries
`batch_size = 999`, and the absent key `extra` receives the preset value
7. -/
theorem transformer_preset_merge_frame_witness :
    ∃ r, modifyParams envTrans none none pTrans = .ok r ∧
      (∀ k v, lookupP qTransPre k = some v → lookupP r k = some v) ∧
      (∀ k, lookupP qTransPre k = none →
        lookupP r k =
          lookupP (envTrans.getModelParams "base" envTrans.numGpus) k) :=
  transformer_preset_merge_frame envTrans none none pTrans qTransPre
    "transformer" "base" (by rfl) (by rfl) (by decide) (by rfl)

/-- C5: `read_params_from_json` forces a truthy stored `dtype` field to
the canonical floating-point type, whatever value was serialized, and
every other field of the returned configuration equals the JSON
content. -/
theorem read_params_json_dtype (m : Params) (d : Value)
    (hd : lookupP m "dtype" = some d) (ht : truthy d = true) :
    ∃ q, readParamsFromJson m = .ok q ∧
      lookupP q "dtype" = some TF_DATA_TYPE ∧
      ∀ k, k ≠ "dtype" → lookupP q k = lookupP m k := by
  refine ⟨setKey (delKey m "dtype") "dtype" TF_DATA_TYPE, ?_,
    lookupP_setKey_self _ _ _, ?_⟩
  · unfold readParamsFromJson
    rw [requireVal_of_lookupP m _ _ hd]
    simp [ht]
  · intro k hk
    rw [lookupP_setKey_ne _ _ _ _ hk, lookupP_delKey_ne _ _ _ hk]

/-- C5 witness: a file storing `dtype = float64` comes back with
`dtype` forced to the canonical type and `batch_size` untouched. -/
theorem read_params_json_dtype_witness :
    ∃ q, readParamsFromJson pJson = .ok q ∧
      lookupP q "dtype" = some TF_DATA_TYPE ∧
      ∀ k, k ≠ "dtype" → lookupP q k = lookupP pJson k :=
  read_params_json_dtype pJson (.vStr "float64") (by rfl) (by decide)

/-- C6: `get_deepconsensus_metrics` returns exactly `2 + |VOCAB|`
metrics — one overall accuracy, one whole-example accuracy, and one
per-class accuracy per vocabulary symbol, where every non-gap symbol is
named `name_prefix ++ symbol` with its own class index and the gap/pad
symbol is reported as `name_prefix ++ "gap_or_pad"` with the gap/pad
class index. -/
theorem deepconsensus_metrics_structure :
    ∀ namePfx : String,
      getDeepconsensusMetrics namePfx =
        [Metric.sparseCategoricalAccuracy (namePfx ++ "accuracy"),
         Metric.perExampleAccuracy (namePfx ++ "per_example_accuracy"),
         Metric.perClassAccuracy 0 (namePfx ++ "A"),
         Metric.perClassAccuracy 1 (namePfx ++ "C"),
         Metric.perClassAccuracy 2 (namePfx ++ "G"),
         Metric.perClassAccuracy 3 (namePfx ++ "T"),
         Metric.perClassAccuracy 4 (namePfx ++ "gap_or_pad")] ∧
      (getDeepconsensusMetrics namePfx).length = 2 + VOCAB.length ∧
      (∀ sym ∈ VOCAB, sym ≠ GAP_OR_PAD →
        Metric.perClassAccuracy (indexOfStr sym VOCAB) (namePfx ++ sym) ∈
          getDeepconsensusMetrics namePfx) ∧
      Metric.perClassAccuracy (indexOfStr GAP_OR_PAD VOCAB)
        (namePfx ++ "gap_or_pad") ∈ getDeepconsensusMetrics namePfx := by
  intro namePfx
  have hmain : getDeepconsensusMetrics namePfx =
      [Metric.sparseCategoricalAccuracy (namePfx ++ "accuracy"),
       Metric.perExampleAccuracy (namePfx ++ "per_example_accuracy"),
       Metric.perClassAccuracy 0 (namePfx ++ "A"),
       Metric.perClassAccuracy 1 (namePfx ++ "C"),
       Metric.perClassAccuracy 2 (namePfx ++ "G"),
       Metric.perClassAccuracy 3 (namePfx ++ "T"),
       Metric.perClassAccuracy 4 (namePfx ++ "gap_or_pad")] := by rfl
  refine ⟨hmain, by rw [hmain]; rfl, ?_, ?_⟩
  · intro sym hsym hne
    rw [hmain]
    simp only [VOCAB, GAP_OR_PAD, List.mem_cons, List.not_mem_nil,
      or_false] at hsym
    rcases hsym with h | h | h | h | h
    all_goals subst h
    · simp [indexOfStr, VOCAB, GAP_OR_PAD]
    · simp [indexOfStr, VOCAB, GAP_OR_PAD]
    · simp [indexOfStr, VOCAB, GAP_OR_PAD]
    · simp [indexOfStr, VOCAB, GAP_OR_PAD]
    · exact absurd rfl hne
  · rw [hmain]
    simp [indexOfStr, VOCAB, GAP_OR_PAD]

/-- C6 witness: the structure applied to the empty prefix, at the
symbol `A` and at the gap/pad symbol. -/
theorem deepconsensus_metrics_structure_witness :
    (getDeepconsensusMetrics "").length = 2 + VOCAB.length ∧
    Metric.perClassAccuracy (indexOfStr "A" VOCAB) ("" ++ "A") ∈
      getDeepconsensusMetrics "" ∧
    Metric.perClassAccuracy (indexOfStr GAP_OR_PAD VOCAB)
      ("" ++ "gap_or_pad") ∈ getDeepconsensusMetrics "" :=
  ⟨(deepconsensus_metrics_structure "").2.1,
   (deepconsensus_metrics_structure "").2.2.1 "A" (by decide) (by decide),
   (deepconsensus_metrics_structure "").2.2.2⟩

/-- Applying `remove_gaps` twice is the same as applying it once. -/
theorem removeGaps_idem (s : String) :
    removeGaps (removeGaps s) = removeGaps s := by
  unfold removeGaps
  simp [List.filter_filter]

/-- C9: `remove_gaps` removes every occurrence of the gap/pad symbol,
keeps all other characters with their relative order and multiplicity,
and is idempotent; consequently `check_has_errors` depends only on the
gap-stripped forms of its arguments. -/
theorem remove_gaps_properties :
    (∀ s : String, ∀ c ∈ (removeGaps s).data, c ≠ gapChar) ∧
    (∀ s : String, (removeGaps s).data.Sublist s.data) ∧
    (∀ s : String, ∀ c : Char, c ≠ gapChar →
      (removeGaps s).data.count c = s.data.count c) ∧
    (∀ s : String, removeGaps (removeGaps s) = removeGaps s) ∧
    (∀ label pred : String, checkHasErrors label pred =
      checkHasErrors (removeGaps label) (removeGaps pred)) := by
  refine ⟨?_, ?_, ?_, removeGaps_idem, ?_⟩
  · intro s c hc
    simp only [removeGaps, List.mem_filter] at hc
    simpa using hc.2
  · intro s
    exact List.filter_sublist _
  · intro s c hc
    unfold removeGaps
    exact List.count_filter (by simpa using hc)
  · intro label pred
    unfold checkHasErrors
    rw [removeGaps_idem, removeGaps_idem]

/-- C9 witness: the properties at the concrete sequence `A AT` (one
gap/pad character inside) and the characters `A` and `T`. -/
theorem remove_gaps_properties_witness :
    ('A' ≠ gapChar) ∧
    ((removeGaps "A AT").data.count 'T' = "A AT".data.count 'T') :=
  ⟨remove_gaps_properties.1 "A AT" 'A' (by decide),
   remove_gaps_properties.2.2.1 "A AT" 'T' (by decide)⟩

/-- C7: the majority-vote entry point raises a usage error exactly when
`input_tfrecords_path` is unset or when `write_errors` is set without
`output_path`; the pipeline construction raises a configuration error
exactly on a `proto_class` other than `DeepConsensusInput` or `Example`,
and succeeds on both accepted values (given the shape probe that the
`Example` path performs). -/
theorem majority_vote_flag_and_proto_errors :
    (∀ (inp : Option String) (we : Bool) (op : Option String),
        (mainFlagCheck inp we op).isOk = false ↔
          inp = none ∨ (we = true ∧ op = none)) ∧
    (∀ (env : Env) (ip : String) (ew : Option Int) (we : Bool)
        (op : Option String) (pc : String),
        pc ≠ "DeepConsensusInput" → pc ≠ "Example" →
        buildMvPipeline env ip ew we op pc =
          .error ("ValueError: Unexpected record type: " ++ pc)) ∧
    (∀ (env : Env) (ip : String) (ew : Option Int) (op : Option String)
        (hgt : Int),
        (env.recordShape (mvModifiedPath ip)).get? 0 = some hgt →
        (buildMvPipeline env ip ew false op "DeepConsensusInput").isOk =
          true ∧
        (buildMvPipeline env ip ew false op "Example").isOk = true) := by
  refine ⟨?_, ?_, ?_⟩
  · intro inp we op
    cases inp <;> cases we <;> cases op <;>
      simp [mainFlagCheck, Except.isOk, Except.toBool]
  · intro env ip ew we op pc h1 h2
    unfold buildMvPipeline
    simp [h1, h2]
  · intro env ip ew op hgt hh
    constructor
    · rfl
    · unfold buildMvPipeline extractExampleHeight
      rw [hh]
      rfl

/-- C7 witness: the unknown proto class `Foo` is rejected, and both
accepted proto classes construct the pipeline under the concrete
environment whose first-record shape is `[85, 100, 1]`. -/
theorem majority_vote_flag_and_proto_errors_witness :
    (buildMvPipeline envConv "in" none false none "Foo" =
      .error ("ValueError: Unexpected record type: " ++ "Foo")) ∧
    ((buildMvPipeline envConv "in" none false none
        "DeepConsensusInput").isOk = true ∧
     (buildMvPipeline envConv "in" none false none "Example").isOk =
       true) :=
  ⟨majority_vote_flag_and_proto_errors.2.1 envConv "in" none false none
      "Foo" (by decide) (by decide),
   majority_vote_flag_and_proto_errors.2.2 envConv "in" none none 85
     (by rfl)⟩

/-- Successful sequential CSV processing produces exactly the two
tagged rows of every file, in file order, and certifies that every file
had at least two data rows. -/
theorem mapExceptCsv_ok (env : ResEnv) (files : List String)
    (rowss : List (List ResRow))
    (h : mapExceptCsv env files = .ok rowss) :
    rowss.flatten = files.flatMap (csvRows env) ∧
    ∀ f ∈ files, ∃ r1 r2, (env.readCsv f).take 2 = [r1, r2] := by
  induction files generalizing rowss with
  | nil =>
    simp only [mapExceptCsv, Except.ok.injEq] at h
    subst h
    simp
  | cons f fs ih =>
    unfold mapExceptCsv at h
    cases hp : processCsv env f with
    | error e => rw [hp] at h; simp at h
    | ok rs =>
      rw [hp] at h
      cases hrest : mapExceptCsv env fs with
      | error e => rw [hrest] at h; simp at h
      | ok rest =>
        rw [hrest] at h
        simp only [Except.ok.injEq] at h
        subst h
        obtain ⟨hf, hall⟩ := ih rest hrest
        unfold processCsv at hp
        split at hp
        · rename_i r1 r2 heq
          simp only [Except.ok.injEq] at hp
          subst hp
          refine ⟨?_, ?_⟩
          · simp only [List.flatten_cons, List.flatMap_cons, hf]
            unfold csvRows
            rw [heq]
          · intro g hg
            rcases List.mem_cons.mp hg with hg | hg
            · subst hg
              exact ⟨r1, r2, heq⟩
            · exact hall g hg
        · exact absurd hp (by simp)

/-- C10: `get_results_df` fails its final assertion when the pattern
matches no CSV for any listed experiment, and otherwise returns exactly
two rows per matched CSV, tagged with `dataset_type` values `eval` and
`hard_eval` in that order. -/
theorem results_df_assert_and_rows :
    (∀ (exps : List Int) (env : ResEnv),
        (∀ e ∈ exps, env.glob e = []) →
        ∃ msg, getResultsDf exps env = .error msg) ∧
    (∀ (exps : List Int) (env : ResEnv) (out : List ResRow),
        getResultsDf exps env = .ok out →
        out = (exps.flatMap (fun e => env.glob e)).flatMap (csvRows env) ∧
        ∀ f ∈ exps.flatMap (fun e => env.glob e),
          ∃ r1 r2, (env.readCsv f).take 2 = [r1, r2] ∧
            csvRows env f = [⟨"eval", workUnitTag f, r1⟩,
              ⟨"hard_eval", workUnitTag f, r2⟩]) := by
  constructor
  · intro exps env hglob
    have hnil : exps.flatMap (fun e => env.glob e) = [] := by
      induction exps with
      | nil => rfl
      | cons e es ih =>
        simp only [List.flatMap_cons, hglob e (List.mem_cons_self e es),
          List.nil_append]
        exact ih (fun x hx => hglob x (List.mem_cons_of_mem e hx))
    refine ⟨"AssertionError: all_lines is not None", ?_⟩
    unfold getResultsDf
    rw [hnil]
    rfl
  · intro exps env out h
    unfold getResultsDf at h
    split at h
    · exact absurd h (by simp)
    · rename_i rowss hm
      split at h
      · exact absurd h (by simp)
      · simp only [Except.ok.injEq] at h
        subst h
        obtain ⟨hf, hall⟩ := mapExceptCsv_ok env _ rowss hm
        refine ⟨hf, ?_⟩
        intro f hfm
        obtain ⟨r1, r2, heq⟩ := hall f hfm
        refine ⟨r1, r2, heq, ?_⟩
        unfold csvRows
        rw [heq]

/-- C10 witness: with no matched file the assertion fires, and with one
matched three-row CSV the output is that file's two tagged rows. -/
theorem results_df_assert_and_rows_witness :
    (∃ msg, getResultsDf [1] resEnvEmpty = .error msg) ∧
    ([ResRow.mk "eval" "e1/wu0" ["0.99", "0.98"],
      ResRow.mk "hard_eval" "e1/wu0" ["0.88", "0.87"]] =
        (([1] : List Int).flatMap (fun e => resEnvOne.glob e)).flatMap
          (csvRows resEnvOne) ∧
      ∀ f ∈ ([1] : List Int).flatMap (fun e => resEnvOne.glob e),
        ∃ r1 r2, (resEnvOne.readCsv f).take 2 = [r1, r2] ∧
          csvRows resEnvOne f = [⟨"eval", workUnitTag f, r1⟩,
            ⟨"hard_eval", workUnitTag f, r2⟩]) :=
  ⟨results_df_assert_and_rows.1 [1] resEnvEmpty (by intro e he; rfl),
   results_df_assert_and_rows.2 [1] resEnvOne _ (by rfl)⟩

end DeepConsensus
